import Mathlib

/-!
Verification of the spyne XML protocol core (spyne.protocol.xml._base) against
its natural-language specification. The Python module is shallowly embedded:
the XmlDocument constructor, validator configuration, the inbound document
pipeline (create_in_document, decompose_incoming_envelope, deserialize), the
outbound pipeline (serialize) and the lxml-backed schema validation hook are
translated into executable Lean definitions; external collaborators (the lxml
parser, the per-type element codec handlers, the validation schema) are
passed in as explicit function arguments, so the control flow of the embedded
code is exactly that of the source.
-/

namespace Spyne

/-- Kwargs dict built in XmlDocument.init and splatted into
lxml.etree.XMLParser in create_in_document. One Bool field per flag, plus the
optional encoding string, mirroring the dict literal at the end of init. -/
structure ParserKwargs where
  attribute_defaults : Bool
  dtd_validation : Bool
  load_dtd : Bool
  no_network : Bool
  ns_clean : Bool
  recover : Bool
  remove_blank_text : Bool
  remove_comments : Bool
  remove_pis : Bool
  strip_cdata : Bool
  resolve_entities : Bool
  huge_tree : Bool
  compact : Bool
  encoding : Option String
  deriving Repr, DecidableEq

/-- Keyword arguments of XmlDocument.init, with the default value of each
one recorded separately in defaultXmlDocumentArgs (the app and validator
arguments are handled by set_validator below and are not part of this
record). -/
structure XmlDocumentArgs where
  xml_declaration : Bool
  cleanup_namespaces : Bool
  encoding : Option String
  pretty_print : Bool
  attribute_defaults : Bool
  dtd_validation : Bool
  load_dtd : Bool
  no_network : Bool
  ns_clean : Bool
  recover : Bool
  remove_blank_text : Bool
  remove_pis : Bool
  strip_cdata : Bool
  resolve_entities : Bool
  huge_tree : Bool
  compact : Bool
  deriving Repr, DecidableEq

/-- Default values of the keyword arguments of XmlDocument.init, read off
its signature. -/
def defaultXmlDocumentArgs : XmlDocumentArgs :=
  { xml_declaration := true
    cleanup_namespaces := true
    encoding := none
    pretty_print := false
    attribute_defaults := false
    dtd_validation := false
    load_dtd := false
    no_network := true
    ns_clean := false
    recover := false
    remove_blank_text := false
    remove_pis := true
    strip_cdata := true
    resolve_entities := false
    huge_tree := false
    compact := true }

/-- Instance state set up by XmlDocument.init (the handler dictionaries are
external codec functions and are modelled at their call sites). -/
structure XmlDocumentState where
  xml_declaration : Bool
  cleanup_namespaces : Bool
  encoding : String
  pretty_print : Bool
  parser_kwargs : ParserKwargs
  deriving Repr, DecidableEq

/-- Embedding of XmlDocument.init: the encoding defaults to UTF-8 when the
argument is None, and parser_kwargs copies each parser flag argument through
unchanged, with remove_comments hard-wired to True and the raw (possibly
None) encoding argument included. -/
def XmlDocument.init (args : XmlDocumentArgs) : XmlDocumentState :=
  { xml_declaration := args.xml_declaration
    cleanup_namespaces := args.cleanup_namespaces
    encoding := match args.encoding with
      | none => "UTF-8"
      | some e => e
    pretty_print := args.pretty_print
    parser_kwargs :=
      { attribute_defaults := args.attribute_defaults
        dtd_validation := args.dtd_validation
        load_dtd := args.load_dtd
        no_network := args.no_network
        ns_clean := args.ns_clean
        recover := args.recover
        remove_blank_text := args.remove_blank_text
        remove_comments := true
        remove_pis := args.remove_pis
        strip_cdata := args.strip_cdata
        resolve_entities := args.resolve_entities
        huge_tree := args.huge_tree
        compact := args.compact
        encoding := args.encoding } }

/-- An lxml element tree: tag (possibly namespace qualified in Clark
notation), attribute map, child elements, optional text content. -/
inductive Elem where
  | node (tag : String) (attribs : List (String × String))
         (children : List Elem) (text : Option String)

/-- Root tag accessor, as in ctx.in_body_doc.tag. -/
def Elem.tag : Elem → String
  | .node t _ _ _ => t

/-- A spyne Fault instance: faultcode and faultstring, the two arguments of
Fault.init used in this module. -/
structure FaultE where
  faultcode : String
  faultstring : String
  deriving Repr, DecidableEq

/-- The two logging destinations of the module: logger, named
spyne.protocol.xml (the primary diagnostic channel), and logger_invalid,
named spyne.protocol.xml.invalid (the lenient invalid-traffic channel that
receives raw offending payloads). Each is a list of the byte strings and
messages handed to it, oldest first. -/
structure LogState where
  primary : List (List Nat)
  invalid : List (List Nat)
  deriving Repr, DecidableEq

/-- Outcome of a call to lxml etree.fromstring with an XMLParser: either a
parsed element or an XMLSyntaxError carrying the parser message. The parser
itself is external; embedded functions receive a parse oracle of this
result type. -/
inductive LxmlParse where
  | success (doc : Elem)
  | syntax_error (msg : String)

/-- Embedding of spyne.util private bytes join: the transport may deliver the
body in pieces and they are concatenated before parsing. -/
def bytes_join (fragments : List (List Nat)) : List Nat :=
  fragments.flatten

/-- Embedding of XmlDocument.create_in_document. The joined byte string is
parsed with an XMLParser built from parser_kwargs (the parse oracle stands
for lxml); on success the parsed tree is returned as ctx.in_document; on an
XMLSyntaxError the raw offending string is logged to logger_invalid only and
a Fault with code Client.XMLSyntaxError and the parser message is raised.
(The ValueError fallback branch for unicode input with an encoding
declaration is outside all claims and concerns a parse attempt that does not
produce the primary result; it is not modelled.) -/
def create_in_document (pk : ParserKwargs)
    (parse : ParserKwargs → List Nat → LxmlParse)
    (in_string : List (List Nat)) (logs : LogState) :
    Except FaultE Elem × LogState :=
  let string := bytes_join in_string
  match parse pk string with
  | .success doc => (.ok doc, logs)
  | .syntax_error msg =>
      (.error { faultcode := "Client.XMLSyntaxError", faultstring := msg },
       { logs with invalid := logs.invalid ++ [string] })

/-- Embedding of the SchemaValidationError constructor: a Fault with code
Client.SchemaValidationError and the given faultstring. -/
def SchemaValidationError (faultstring : String) : FaultE :=
  { faultcode := "Client.SchemaValidationError", faultstring := faultstring }

/-- The compiled validation schema collaborator: validate returns a boolean,
and error_log_after gives the diagnostic messages accumulated in its
error_log by validating the given document, oldest first (so last_error is
the last entry). -/
structure ValidationSchema where
  validate : Elem → Bool
  error_log_after : Elem → List String

/-- Python str applied to error_log.last_error: the last log entry, or the
string None when the log is empty (lxml last_error is None then). -/
def ValidationSchema.last_error_str (vs : ValidationSchema) (doc : Elem) : String :=
  (vs.error_log_after doc).getLastD "None"

/-- Embedding of the private XmlDocument validate_lxml method: run the
compiled schema validator on the payload and, exactly when it returns False,
raise SchemaValidationError carrying str of the last error of the validator
error log. -/
def validate_lxml (vs : ValidationSchema) (payload : Elem) : Except FaultE Unit :=
  let ret := vs.validate payload
  if ret = false then
    .error (SchemaValidationError (vs.last_error_str payload))
  else
    .ok ()

/-- The validator constructor argument: Python None, a string, or one of the
two sentinel class objects ProtocolBase.SOFT_VALIDATION and
XmlDocument.SCHEMA_VALIDATION. -/
inductive ValidatorArg where
  | none_v
  | str (s : String)
  | soft_sentinel
  | schema_sentinel
  deriving Repr, DecidableEq

/-- The validation modes an XmlDocument can end up in. -/
inductive ValidatorMode where
  | off
  | soft
  | schema
  deriving Repr, DecidableEq

/-- Validator-related instance state touched by set_validator: the chosen
mode (off until a validator is set), whether validate_document has been
rebound to the lxml schema validator, and the cached validation schema. -/
structure ValidatorState where
  validator : ValidatorMode
  validate_document_is_lxml : Bool
  validation_schema : Option ValidationSchema

/-- Embedding of XmlDocument.set_validator: the strings lxml and schema and
the SCHEMA_VALIDATION sentinel all select schema validation and rebind
validate_document; the string soft and the SOFT_VALIDATION sentinel select
soft validation; None leaves the state as it was; anything else raises
ValueError (modelled as the error branch). In every non-raising branch
validation_schema is reset to None. -/
def set_validator (prev : ValidatorState) (validator : ValidatorArg) :
    Except Unit ValidatorState :=
  if validator = .str "lxml" ∨ validator = .str "schema" ∨
      validator = .schema_sentinel then
    .ok { validator := .schema, validate_document_is_lxml := true,
          validation_schema := none }
  else if validator = .str "soft" ∨ validator = .soft_sentinel then
    .ok { prev with validator := .soft, validation_schema := none }
  else if validator = .none_v then
    .ok { prev with validation_schema := none }
  else
    .error ()

/-- The message direction argument of the pipeline methods, REQUEST or
RESPONSE (the assert message in (REQUEST, RESPONSE) checks are enforced by
this type). -/
inductive Message where
  | request
  | response
  deriving Repr, DecidableEq

/-- An opaque native value carried in ctx.out_object or assigned to a field
of a message instance; the pipeline never inspects it. -/
structure Value where
  id : Nat
  deriving Repr, DecidableEq

/-- An opaque error value found in ctx.out_error, tagged with its runtime
class name (serialize dispatches the codec on out_error class). -/
structure ErrVal where
  cls_name : String
  payload : Nat
  deriving Repr, DecidableEq

/-- A message class: its name and its type info keys, i.e. the declared
field names in declared order. -/
structure MsgClass where
  name : String
  field_names : List String
  deriving Repr, DecidableEq

/-- Body style of a method descriptor; serialize compares it against
BODY_STYLE_WRAPPED. -/
inductive BodyStyle where
  | wrapped
  | bare
  deriving Repr, DecidableEq

/-- The slice of a method descriptor the pipeline reads: input message
class, output message class, body style. -/
structure Descriptor where
  in_message : MsgClass
  out_message : MsgClass
  body_style : BodyStyle
  deriving Repr, DecidableEq

/-- The context slice read by serialize. ctx.out_object is the positional
result sequence indexed in the wrapped branch. -/
structure SCtx where
  out_error : Option ErrVal
  descriptor : Descriptor
  out_object : List (Option Value)
  deriving Repr, DecidableEq

/-- The value handed to the element codec. The codec functions themselves
are external (spyne.protocol.xml.model), so the embedding keeps a symbolic
record of exactly what serialize asked them to encode: the error value, a
freshly assembled wrapped message instance with its field assignments, or
ctx.out_object passed through directly. -/
inductive SerValue where
  | errVal (e : ErrVal)
  | inst (fields : List (String × Option Value))
  | out_object_direct (vals : List (Option Value))
  deriving Repr, DecidableEq

/-- Record of the single to_parent_element call whose output element becomes
ctx.out_document: the class dispatched on, the value to encode, and the
target namespace passed. -/
structure EncodedElt where
  cls_name : String
  value : SerValue
  tns : String
  deriving Repr, DecidableEq

/-- Exception escaping serialize when ctx.out_object is too short for the
wrapped field assignment loop (Python IndexError on out_object at i). -/
inductive SerErr where
  | index_error
  deriving Repr, DecidableEq

/-- Result of serialize: the encoded output document, whether
etree.cleanup_namespaces was applied to it (cosmetic only), and the events
fired on the event manager, in order. -/
structure SerOutput where
  out_document : EncodedElt
  namespaces_cleaned : Bool
  events : List String
  deriving Repr, DecidableEq

instance {ε α : Type} [DecidableEq ε] [DecidableEq α] :
    DecidableEq (Except ε α) := fun a b =>
  match a, b with
  | .ok x, .ok y => decidable_of_iff (x = y) (by simp)
  | .error x, .error y => decidable_of_iff (x = y) (by simp)
  | .ok _, .error _ => .isFalse (by simp)
  | .error _, .ok _ => .isFalse (by simp)

/-- The local variable result_message_class of serialize (and body_class of
deserialize): the descriptor input message for a request, its output message
for a response. -/
def result_message_class (d : Descriptor) (message : Message) : MsgClass :=
  match message with
  | .request => d.in_message
  | .response => d.out_message

/-- The setattr loop of the wrapped branch of serialize: assign the value at
index i of out_object to the i-th declared field name of the fresh result
message. Runs out of values exactly when out_object is shorter than the
field list (Python IndexError, the none result). -/
def setattrs : List String → List (Option Value) →
    Option (List (String × Option Value))
  | [], _ => some []
  | _ :: _, [] => none
  | n :: ns, v :: vs =>
      match setattrs ns vs with
      | none => none
      | some rest => some ((n, v) :: rest)

/-- Embedding of XmlDocument.serialize. When ctx.out_error is set, the whole
output document is the codec encoding of the error value alone (dispatched
on its class, against the application target namespace); otherwise the
result message is assembled according to the descriptor body style (a fresh
instance of the selected message class with positional field assignment for
wrapped, ctx.out_object directly for bare) and encoded. Namespace cleanup is
applied when configured, and the before and after events fire around the
work without altering control flow. -/
def serialize (cleanup_namespaces : Bool) (tns : String) (ctx : SCtx)
    (message : Message) : Except SerErr SerOutput :=
  match ctx.out_error with
  | some e =>
      .ok { out_document := { cls_name := e.cls_name, value := .errVal e,
                              tns := tns },
            namespaces_cleaned := cleanup_namespaces,
            events := ["before_serialize", "after_serialize"] }
  | none =>
      let rmc := result_message_class ctx.descriptor message
      if ctx.descriptor.body_style = .wrapped then
        match setattrs rmc.field_names ctx.out_object with
        | none => .error .index_error
        | some fields =>
            .ok { out_document := { cls_name := rmc.name,
                                    value := .inst fields, tns := tns },
                  namespaces_cleaned := cleanup_namespaces,
                  events := ["before_serialize", "after_serialize"] }
      else
        .ok { out_document := { cls_name := rmc.name,
                                value := .out_object_direct ctx.out_object,
                                tns := tns },
              namespaces_cleaned := cleanup_namespaces,
              events := ["before_serialize", "after_serialize"] }

/-- The decoded value assigned to ctx.in_object by deserialize: either a
plain Python list (the all-None list of the empty-body branch) or the result
of the external from_element codec dispatch, kept symbolic. -/
inductive InObject where
  | pylist (vals : List (Option Value))
  | from_element (cls_name : String) (doc : Elem)

/-- The context slice read and written by deserialize. -/
structure DCtx where
  descriptor : Option Descriptor
  in_error : Option FaultE
  in_body_doc : Option Elem
  method_request_string : String
  in_object : Option InObject

/-- Embedding of XmlDocument.deserialize. A missing descriptor raises the
method-not-found client fault (or rethrows ctx.in_error); otherwise the body
class is selected by message direction and ctx.in_object is set to an
all-None list of the body class field count when there is no body document,
else to the from_element decoding of the body document. Event firing is
notification only and does not alter control flow. -/
def deserialize (ctx : DCtx) (message : Message) : Except FaultE DCtx :=
  match ctx.descriptor with
  | none =>
      match ctx.in_error with
      | none =>
          .error { faultcode := "Client",
                   faultstring := "Method \x27" ++ ctx.method_request_string
                                    ++ "\x27 not found." }
      | some e => .error e
  | some d =>
      let body_class := result_message_class d message
      match ctx.in_body_doc with
      | none =>
          .ok { ctx with
                in_object :=
                  some (.pylist (List.replicate body_class.field_names.length none)) }
      | some doc =>
          .ok { ctx with in_object := some (.from_element body_class.name doc) }

/-- The context slice read and written by decompose_incoming_envelope. -/
structure InCtx where
  in_document : Elem
  in_header_doc : Option Elem
  in_body_doc : Option Elem
  method_request_string : String

/-- Embedding of XmlDocument.validate_body: it calls the configured
validate_document on ctx.in_body_doc (its logging is debug-level only and
off by default). -/
def validate_body (validate_document : Option Elem → Except FaultE Unit)
    (ctx : InCtx) (_message : Message) : Except FaultE Unit :=
  validate_document ctx.in_body_doc

/-- Embedding of XmlDocument.decompose_incoming_envelope: the header
document is set to None, the body document to the whole parsed input
document and the method request string to its root tag, and only then is
validate_body run on the updated context. The pair returned keeps the
updated context alongside the validation outcome, since in Python the
context mutation persists even when validation raises. -/
def decompose_incoming_envelope
    (validate_document : Option Elem → Except FaultE Unit)
    (ctx : InCtx) (message : Message) : InCtx × Except FaultE Unit :=
  let ctx2 : InCtx :=
    { ctx with in_header_doc := none,
               in_body_doc := some ctx.in_document,
               method_request_string := ctx.in_document.tag }
  (ctx2, validate_body validate_document ctx2 message)

/-- A field declaration of a complex model type as seen by the schema
generator: field name, schema type name, and the optional xml_choice_group
customization flag. -/
structure FieldDecl where
  name : String
  type_name : String
  xml_choice_group : Option String
  deriving Repr, DecidableEq

/-- Modelled from the spec: the Schema Generator (spec section 4.4) is not
under src, only its test is; one field becomes one xs element declaration
carrying the field name and type. -/
def gen_element (f : FieldDecl) : Elem :=
  Elem.node "element" [("name", f.name), ("type", f.type_name)] [] none

/-- Modelled from the spec: the Schema Generator (spec section 4.4) is not
under src, only its test is. Children of the complexType sequence, walking
the fields in declared order: an ordinary field becomes a direct element
child; at the first field of a choice group one xs choice node is emitted
holding the elements of every member of that group in declared order, and
later members of an already-emitted group are skipped. The seen argument
accumulates the groups already emitted. -/
def gen_sequence_children : List FieldDecl → List String → List Elem
  | [], _ => []
  | f :: rest, seen =>
      match f.xml_choice_group with
      | none => gen_element f :: gen_sequence_children rest seen
      | some g =>
          if seen.contains g then
            gen_sequence_children rest seen
          else
            Elem.node "choice" []
                (((f :: rest).filter
                    (fun x => x.xml_choice_group = some g)).map gen_element) none
              :: gen_sequence_children rest (g :: seen)

/-- Modelled from the spec: the Schema Generator (spec section 4.4) is not
under src, only its test is; each complex type becomes a complexType node
with one sequence of element and choice declarations. -/
def gen_complex_type_xsd (type_name : String) (fields : List FieldDecl) : Elem :=
  Elem.node "complexType" [("name", type_name)]
    [Elem.node "sequence" [] (gen_sequence_children fields []) none] none

/-- Modelled from the spec: get_schema_documents for one target namespace,
an xs schema root holding one complexType per declared type. -/
def get_schema_document (types : List (String × List FieldDecl)) : Elem :=
  Elem.node "schema" [] (types.map fun t => gen_complex_type_xsd t.1 t.2) none

/-- The fields of SomeObject from the choice-group test: two Integer fields
in choice group numbers and one ordinary Unicode field. -/
def someObjectFields : List FieldDecl :=
  [{ name := "one", type_name := "integer", xml_choice_group := some "numbers" },
   { name := "two", type_name := "integer", xml_choice_group := some "numbers" },
   { name := "punk", type_name := "string", xml_choice_group := none }]

/-- An attribute declaration inside an xsd extension: attribute name and the
local name of its xsd type. -/
structure XsdAttributeDecl where
  name : String
  type_name : String
  deriving Repr, DecidableEq

/-- A foreign complexType defined via simpleContent with an extension over a
simple base: type name, base type local name, and the attributes declared on
the extension. -/
structure SimpleContentExtension where
  type_name : String
  base : String
  attributes : List XsdAttributeDecl
  deriving Repr, DecidableEq

/-- How a resulting field wraps its type: as the element text content
(XmlData) or as an attribute (XmlAttribute). -/
inductive FieldWrapper where
  | xml_data
  | xml_attribute
  deriving Repr, DecidableEq

/-- One entry of the type info produced by the importer: the wrapper kind
and the mapped spyne type name. -/
structure ParsedField where
  wrapper : FieldWrapper
  type_name : String
  deriving Repr, DecidableEq

/-- Modelled from the spec: the Foreign Schema Importer (spec section 4.5)
is not under src, only its test is; the xsd string simple type maps to the
spyne Unicode type. -/
def map_xsd_simple_type : String → String
  | "string" => "Unicode"
  | t => t

/-- Modelled from the spec: the Foreign Schema Importer (spec section 4.5)
is not under src, only its test is. A simpleContent extension complex type
yields a type whose single text-content field is named by the fixed internal
sentinel _data, an XmlData field of the mapped base type, and each attribute
declared on the extension becomes an ordinary XmlAttribute field of its
mapped type. -/
def parse_simple_content (sce : SimpleContentExtension) :
    List (String × ParsedField) :=
  ("_data", { wrapper := .xml_data,
              type_name := map_xsd_simple_type sce.base }) ::
    sce.attributes.map (fun a =>
      (a.name, { wrapper := .xml_attribute,
                 type_name := map_xsd_simple_type a.type_name }))

/-- The SomeGuy declaration of the foreign-schema test: simpleContent
extension over xsd string with one optional string attribute named attr. -/
def someGuyExtension : SimpleContentExtension :=
  { type_name := "SomeGuy", base := "string",
    attributes := [{ name := "attr", type_name := "string" }] }

/-- Parse oracle that fails on every input, standing for lxml rejecting a
malformed document. -/
def alwaysSyntaxError : ParserKwargs → List Nat → LxmlParse :=
  fun _ _ => .syntax_error "Start tag expected"

/-- Validation schema that rejects every document with a two-entry error
log, so the last entry is the more specific one. -/
def exFailingSchema : ValidationSchema :=
  { validate := fun _ => false
    error_log_after := fun _ => ["generic diagnostic", "most specific diagnostic"] }

/-- Concrete parsed document used by witnesses. -/
def exDoc : Elem := .node "some_call" [] [] none

/-- Validator state of a freshly constructed protocol before any validator
is chosen: no validation. -/
def initialValidatorState : ValidatorState :=
  { validator := .off, validate_document_is_lxml := false,
    validation_schema := none }

/-- Descriptor whose input and output message classes differ, with wrapped
body style. -/
def exReqDescriptor : Descriptor :=
  { in_message := { name := "EchoIn", field_names := ["x"] },
    out_message := { name := "EchoOut", field_names := ["y"] },
    body_style := .wrapped }

/-- Serialize context with no error, one positional result and the wrapped
descriptor above. -/
def exReqCtx : SCtx :=
  { out_error := none, descriptor := exReqDescriptor,
    out_object := [some { id := 7 }] }

/-- Serialize context carrying an error value. -/
def exErrCtx : SCtx :=
  { out_error := some { cls_name := "Fault", payload := 3 },
    descriptor := exReqDescriptor,
    out_object := [some { id := 7 }] }

/-- Serialize context with bare body style and no error. -/
def exBareCtx : SCtx :=
  { out_error := none,
    descriptor := { exReqDescriptor with body_style := .bare },
    out_object := [some { id := 9 }] }

/-- Deserialize context with a descriptor present and no body document. -/
def exDCtx : DCtx :=
  { descriptor := some exReqDescriptor, in_error := none,
    in_body_doc := none, method_request_string := "EchoIn",
    in_object := none }

end Spyne

namespace Spyne

/-- Claim C1: an XmlDocument constructed with default arguments hands the XML
parser a hardened configuration: no_network is True, load_dtd and
dtd_validation are False, resolve_entities is False, remove_pis is True and
huge_tree is False; and each of these six flags is an independent constructor
parameter copied through to the parser kwargs unchanged, so each can be
individually overridden. -/
theorem C1_parser_hardened_defaults :
    ((XmlDocument.init defaultXmlDocumentArgs).parser_kwargs.no_network = true ∧
     (XmlDocument.init defaultXmlDocumentArgs).parser_kwargs.load_dtd = false ∧
     (XmlDocument.init defaultXmlDocumentArgs).parser_kwargs.dtd_validation = false ∧
     (XmlDocument.init defaultXmlDocumentArgs).parser_kwargs.resolve_entities = false ∧
     (XmlDocument.init defaultXmlDocumentArgs).parser_kwargs.remove_pis = true ∧
     (XmlDocument.init defaultXmlDocumentArgs).parser_kwargs.huge_tree = false) ∧
    (∀ args : XmlDocumentArgs,
      (XmlDocument.init args).parser_kwargs.no_network = args.no_network ∧
      (XmlDocument.init args).parser_kwargs.load_dtd = args.load_dtd ∧
      (XmlDocument.init args).parser_kwargs.dtd_validation = args.dtd_validation ∧
      (XmlDocument.init args).parser_kwargs.resolve_entities = args.resolve_entities ∧
      (XmlDocument.init args).parser_kwargs.remove_pis = args.remove_pis ∧
      (XmlDocument.init args).parser_kwargs.huge_tree = args.huge_tree) := by
  refine ⟨⟨rfl, rfl, rfl, rfl, rfl, rfl⟩, ?_⟩
  intro args
  exact ⟨rfl, rfl, rfl, rfl, rfl, rfl⟩

/-- Claim C2: when the concatenated byte fragments fail XML parsing with a
syntax error, create_in_document fails with the parse-time client fault (code
Client.XMLSyntaxError) carrying the parser message, and the raw offending
payload is appended to the lenient invalid-traffic log only, leaving the
primary diagnostic channel exactly as it was. -/
theorem C2_syntax_error_fault_and_logging
    (pk : ParserKwargs) (parse : ParserKwargs → List Nat → LxmlParse)
    (in_string : List (List Nat)) (logs : LogState) (msg : String)
    (h : parse pk (bytes_join in_string) = .syntax_error msg) :
    create_in_document pk parse in_string logs =
      (.error { faultcode := "Client.XMLSyntaxError", faultstring := msg },
       { primary := logs.primary,
         invalid := logs.invalid ++ [bytes_join in_string] }) := by
  simp [create_in_document, h]

/-- Witness for C2 at a concrete two-fragment input and empty logs. -/
theorem C2_witness :
    create_in_document (XmlDocument.init defaultXmlDocumentArgs).parser_kwargs
        alwaysSyntaxError [[60], [102]] { primary := [], invalid := [] } =
      (.error { faultcode := "Client.XMLSyntaxError",
                faultstring := "Start tag expected" },
       { primary := [], invalid := [[60, 102]] }) :=
  C2_syntax_error_fault_and_logging _ alwaysSyntaxError [[60], [102]] _ _ rfl

/-- Claim C3: with schema validation enabled, whenever the compiled
validation schema returns False on a document, validate_lxml raises
SchemaValidationError whose fault string is str of the last (most specific)
entry of the validator error log, not the full log; when it returns True no
error is raised. -/
theorem C3_schema_validation_error (vs : ValidationSchema) (payload : Elem) :
    (vs.validate payload = false →
      validate_lxml vs payload =
        .error { faultcode := "Client.SchemaValidationError",
                 faultstring := (vs.error_log_after payload).getLastD "None" }) ∧
    (vs.validate payload = true →
      validate_lxml vs payload = .ok ()) := by
  constructor <;> intro h <;>
    simp [validate_lxml, SchemaValidationError, ValidationSchema.last_error_str, h]

/-- Witness for C3: the failing schema at the concrete document produces the
fault carrying only the last log entry. -/
theorem C3_witness :
    exFailingSchema.validate exDoc = false ∧
    validate_lxml exFailingSchema exDoc =
      .error { faultcode := "Client.SchemaValidationError",
               faultstring := "most specific diagnostic" } :=
  ⟨rfl, (C3_schema_validation_error exFailingSchema exDoc).1 rfl⟩

/-- Claim C6: the accepted validator settings are exactly the none, soft and
schema modes; the spellings lxml and schema (and the SCHEMA_VALIDATION
sentinel) all select the same schema-validation mode, soft (and the
SOFT_VALIDATION sentinel) selects soft validation, None leaves the mode as
it was, and every other value raises ValueError. -/
theorem C6_validator_modes (prev : ValidatorState) :
    (set_validator prev (.str "lxml") = set_validator prev (.str "schema") ∧
     set_validator prev (.str "lxml") = set_validator prev .schema_sentinel ∧
     ∃ st, set_validator prev (.str "schema") = .ok st ∧
           st.validator = .schema) ∧
    (∃ st, set_validator prev (.str "soft") = .ok st ∧ st.validator = .soft ∧
           set_validator prev .soft_sentinel = .ok st) ∧
    (set_validator prev .none_v = .ok { prev with validation_schema := none }) ∧
    (∀ s : String, s ≠ "lxml" → s ≠ "schema" → s ≠ "soft" →
       set_validator prev (.str s) = .error ()) := by
  refine ⟨⟨rfl, rfl, ?_⟩, ⟨?_, ?_, ?_⟩⟩
  · exact ⟨_, rfl, rfl⟩
  · exact ⟨_, rfl, rfl, rfl⟩
  · rfl
  · intro s h1 h2 h3
    simp [set_validator, h1, h2, h3]

/-- Witness for C6: the unrecognized validator string punk raises
ValueError. -/
theorem C6_witness :
    set_validator initialValidatorState (.str "punk") = .error () :=
  (C6_validator_modes initialValidatorState).2.2.2 "punk"
    (by decide) (by decide) (by decide)

/-- Claim C4: when ctx.out_error is set, the whole output document is the
encoding of the error value alone (dispatched on its class against the
application target namespace), and the result is independent of
ctx.out_object and of the descriptor, so the normal result message is not
encoded at all. -/
theorem C4_error_replaces_body (cleanup : Bool) (tns : String) (ctx : SCtx)
    (message : Message) (e : ErrVal) (h : ctx.out_error = some e) :
    serialize cleanup tns ctx message =
      .ok { out_document := { cls_name := e.cls_name, value := .errVal e,
                              tns := tns },
            namespaces_cleaned := cleanup,
            events := ["before_serialize", "after_serialize"] } ∧
    (∀ (out_object2 : List (Option Value)) (d2 : Descriptor),
      serialize cleanup tns
          { ctx with out_object := out_object2, descriptor := d2 } message =
        serialize cleanup tns ctx message) := by
  refine ⟨?_, ?_⟩
  · simp [serialize, h]
  · intro o2 d2
    simp [serialize, h]

/-- Witness for C4: a concrete context carrying a Fault error value is
serialized to the error encoding, ignoring the pending result. -/
theorem C4_witness :
    serialize true "kickass.ns" exErrCtx .response =
      .ok { out_document := { cls_name := "Fault",
                              value := .errVal { cls_name := "Fault",
                                                 payload := 3 },
                              tns := "kickass.ns" },
            namespaces_cleaned := true,
            events := ["before_serialize", "after_serialize"] } :=
  (C4_error_replaces_body true "kickass.ns" exErrCtx .response
    { cls_name := "Fault", payload := 3 } rfl).1

/-- Helper for the wrapped branch: when out_object is at least as long as
the field name list, the setattr loop succeeds and pairs the i-th field name
with the i-th positional value, i.e. produces the zip of the two lists. -/
theorem setattrs_eq_zip_of_le (names : List String) (vals : List (Option Value))
    (h : names.length ≤ vals.length) :
    setattrs names vals = some (names.zip vals) := by
  induction names generalizing vals with
  | nil => simp [setattrs]
  | cons n ns ih =>
    cases vals with
    | nil => simp at h
    | cons v vs =>
      simp only [setattrs, List.zip_cons_cons]
      rw [ih vs (by simpa using h)]

/-- Counterexample to claim C5 as stated: a serialize call in the request
direction with no error and wrapped body style builds and encodes an
instance of the descriptor input message class EchoIn with its field names,
not of the output message class EchoOut named by the claim. -/
theorem C5_counterexample :
    exReqCtx.out_error = none ∧
    exReqCtx.descriptor.body_style = .wrapped ∧
    serialize true "tns" exReqCtx .request =
      .ok { out_document := { cls_name := "EchoIn",
                              value := .inst [("x", some { id := 7 })],
                              tns := "tns" },
            namespaces_cleaned := true,
            events := ["before_serialize", "after_serialize"] } ∧
    serialize true "tns" exReqCtx .request ≠
      .ok { out_document :=
              { cls_name := exReqCtx.descriptor.out_message.name,
                value := .inst (exReqCtx.descriptor.out_message.field_names.zip
                                  exReqCtx.out_object),
                tns := "tns" },
            namespaces_cleaned := true,
            events := ["before_serialize", "after_serialize"] } := by
  refine ⟨rfl, rfl, rfl, ?_⟩
  decide

/-- Claim C5 as amended: with no error value and wrapped body style, a fresh
instance of the selected message class (the descriptor input message when
serializing a request, its output message when serializing a response) is
created and the i-th positional value of ctx.out_object is assigned to the
i-th declared field name in declared order before encoding; with bare body
style ctx.out_object is encoded directly with no wrapping container. -/
theorem C5_result_assembly_amended (cleanup : Bool) (tns : String) (ctx : SCtx)
    (message : Message) (h : ctx.out_error = none) :
    (ctx.descriptor.body_style = .wrapped →
      (result_message_class ctx.descriptor message).field_names.length ≤
          ctx.out_object.length →
      serialize cleanup tns ctx message =
        .ok { out_document :=
                { cls_name := (result_message_class ctx.descriptor message).name,
                  value := .inst
                    ((result_message_class ctx.descriptor message).field_names.zip
                      ctx.out_object),
                  tns := tns },
              namespaces_cleaned := cleanup,
              events := ["before_serialize", "after_serialize"] }) ∧
    (ctx.descriptor.body_style = .bare →
      serialize cleanup tns ctx message =
        .ok { out_document :=
                { cls_name := (result_message_class ctx.descriptor message).name,
                  value := .out_object_direct ctx.out_object,
                  tns := tns },
              namespaces_cleaned := cleanup,
              events := ["before_serialize", "after_serialize"] }) := by
  constructor
  · intro hw hlen
    simp [serialize, h, hw, setattrs_eq_zip_of_le _ _ hlen]
  · intro hb
    simp [serialize, h, hb]

/-- Witness for the amended C5: a concrete wrapped request call assembles
the input message instance from the positional result, and a concrete bare
response call encodes ctx.out_object directly. -/
theorem C5_amended_witness :
    serialize true "tns" exReqCtx .request =
      .ok { out_document := { cls_name := "EchoIn",
                              value := .inst [("x", some { id := 7 })],
                              tns := "tns" },
            namespaces_cleaned := true,
            events := ["before_serialize", "after_serialize"] } ∧
    serialize true "tns" exBareCtx .response =
      .ok { out_document := { cls_name := "EchoOut",
                              value := .out_object_direct [some { id := 9 }],
                              tns := "tns" },
            namespaces_cleaned := true,
            events := ["before_serialize", "after_serialize"] } :=
  ⟨(C5_result_assembly_amended true "tns" exReqCtx .request rfl).1 rfl
      (by decide),
   (C5_result_assembly_amended true "tns" exBareCtx .response rfl).2 rfl⟩

/-- Claim C7: the generated XSD for SomeObject (two Integer fields in choice
group numbers plus the ordinary field punk) nests the elements one and two
inside one xs choice, itself nested inside the complexType xs sequence,
while punk remains a direct xs element child of that sequence. -/
theorem C7_choice_group_schema :
    get_schema_document [("SomeObject", someObjectFields)] =
      Elem.node "schema" []
        [Elem.node "complexType" [("name", "SomeObject")]
          [Elem.node "sequence" []
            [Elem.node "choice" []
              [Elem.node "element" [("name", "one"), ("type", "integer")] [] none,
               Elem.node "element" [("name", "two"), ("type", "integer")] [] none]
              none,
             Elem.node "element" [("name", "punk"), ("type", "string")] [] none]
            none]
          none]
        none := rfl

/-- Claim C8: importing the foreign SomeGuy complexType, defined by
simpleContent extension over a string base with one string attribute attr,
yields a type whose single text-content field is the fixed internal sentinel
_data, an XmlData field of type Unicode, and whose extension attribute
becomes an XmlAttribute field of type Unicode. -/
theorem C8_simple_content_import :
    parse_simple_content someGuyExtension =
      [("_data", { wrapper := .xml_data, type_name := "Unicode" }),
       ("attr", { wrapper := .xml_attribute, type_name := "Unicode" })] ∧
    (parse_simple_content someGuyExtension).lookup "_data" =
      some { wrapper := .xml_data, type_name := "Unicode" } ∧
    (parse_simple_content someGuyExtension).lookup "attr" =
      some { wrapper := .xml_attribute, type_name := "Unicode" } := by
  refine ⟨rfl, ?_, ?_⟩ <;> rfl

/-- Claim C9: for both request and response messages,
decompose_incoming_envelope sets the header document to None, the body
document to the entire parsed input document and the method request string
to the root tag, and body validation then runs on that already-set body
document. -/
theorem C9_decompose_sets_context
    (validate_document : Option Elem → Except FaultE Unit)
    (ctx : InCtx) (message : Message) :
    (decompose_incoming_envelope validate_document ctx message).1.in_header_doc
        = none ∧
    (decompose_incoming_envelope validate_document ctx message).1.in_body_doc
        = some ctx.in_document ∧
    (decompose_incoming_envelope validate_document ctx
        message).1.method_request_string = ctx.in_document.tag ∧
    (decompose_incoming_envelope validate_document ctx message).2
        = validate_document (some ctx.in_document) :=
  ⟨rfl, rfl, rfl, rfl⟩

/-- Claim C10: when deserialize runs with a descriptor present and no body
document, no error is raised and ctx.in_object becomes a list of None values
whose length is the field count of the selected message class, the
descriptor input message for a request and its output message for a
response. -/
theorem C10_empty_body_all_none (ctx : DCtx) (message : Message)
    (d : Descriptor) (h1 : ctx.descriptor = some d)
    (h2 : ctx.in_body_doc = none) :
    deserialize ctx message =
      .ok { ctx with
            in_object := some (.pylist (List.replicate
              (result_message_class d message).field_names.length none)) } ∧
    (List.replicate (result_message_class d message).field_names.length
        (none : Option Value)).length =
      (result_message_class d message).field_names.length := by
  constructor
  · simp [deserialize, h1, h2]
  · simp

/-- Witness for C10: a concrete response context with no body document
decodes to the one-element all-None list matching the single output field of
EchoOut. -/
theorem C10_witness :
    deserialize exDCtx .response =
      .ok { exDCtx with in_object := some (.pylist [none]) } :=
  (C10_empty_body_all_none exDCtx .response exReqDescriptor rfl rfl).1

end Spyne
